import Mathlib

/-!
Shallow embedding of the bookstore service in `server.js`
(Express + MongoDB collection of book documents + Azure Blob SAS issuance).

Each HTTP route handler is embedded as a pure Lean function from the
request data (and the current collection state, where the route touches
the database) to the HTTP response it produces, together with the new
collection state.  External time (`new Date()`, `Date.now()`) is passed
in as a millisecond timestamp argument; the freshly generated `uuidv4()`
of the create route is passed in as a string argument.
-/

set_option autoImplicit false

namespace Bookstore

/-- A JavaScript value, at the granularity the routes inspect request
bodies: `req.body` destructuring yields `undefined` for a missing key,
and the validation checks in the routes are JS truthiness checks.
JS numbers are modelled as rationals (the routes never do arithmetic on
them, so NaN and minus-zero subtleties are not needed). -/
inductive JSValue where
  | undefined
  | null
  | bool (b : Bool)
  | num (q : Rat)
  | str (s : String)
deriving DecidableEq, Repr

/-- JS truthiness, as used by the guards of the form
`if (!title || !author)`, `if (!filename)`, `if (!blob)`:
`undefined`, `null`, `false`, `0` and the empty string are falsy. -/
def truthy : JSValue → Bool
  | .undefined => false
  | .null => false
  | .bool b => b
  | .num q => decide (q ≠ 0)
  | .str s => decide (s ≠ "")

/-- The BSON serialization the MongoDB node driver applies to each field
value it writes (`insertOne`, `$set`): with the default
`ignoreUndefined: false`, a JS `undefined` field value is serialized as
BSON `null`; every other value is stored as supplied. -/
def bsonValue : JSValue → JSValue
  | .undefined => .null
  | v => v

/-- The request body of `POST /api/books` and `PUT /api/books/:id`, as
destructured by `const { title, author, price, coverBlob } = req.body`:
a key missing from the JSON body destructures to `undefined`. -/
structure ReqBody where
  title : JSValue
  author : JSValue
  price : JSValue
  coverBlob : JSValue
deriving DecidableEq, Repr

/-- A stored book document.  `objId` models the MongoDB `_id` ObjectId
automatically assigned at insertion: within one driver process ObjectIds
are strictly increasing with insertion order, so `_id` is modelled as the
insertion sequence number (the `listBooks` sort key `{ _id: -1 }`).
`createdAt` and `updatedAt` are `Date` values, modelled as millisecond
timestamps; a document has no `updatedAt` key until first updated. -/
structure BookDoc where
  objId : Nat
  id : String
  title : JSValue
  author : JSValue
  price : JSValue
  coverBlob : JSValue
  createdAt : Nat
  updatedAt : Option Nat
deriving DecidableEq, Repr

/-- The `booksCollection` state: documents in natural (insertion) order,
plus the next `_id` value the driver will assign. -/
structure Store where
  docs : List Bookstore.BookDoc
  nextObjId : Nat
deriving DecidableEq, Repr

/-- The match predicate of `findOne({ id })`, `findOneAndUpdate({ id }, ...)`
and `deleteOne({ id })`: the application-level `id` field, not `_id`. -/
def idMatches (i : String) (d : BookDoc) : Bool :=
  decide (d.id = i)

/- ==============================
   Responses of the book routes
   ============================== -/

/-- Response of `GET /api/books/:id`. -/
inductive GetRes where
  | notFound (error : String)
  | ok (doc : BookDoc)
deriving DecidableEq, Repr

/-- HTTP status of a `GET /api/books/:id` response
(`res.status(404).json(...)` vs plain `res.json(book)`). -/
def GetRes.status : GetRes → Nat
  | .notFound _ => 404
  | .ok _ => 200

/-- Response of `POST /api/books`. -/
inductive CreateRes where
  | badRequest (error : String)
  | created (doc : BookDoc)
deriving DecidableEq, Repr

/-- HTTP status of a `POST /api/books` response
(`res.status(400)` vs `res.status(201)`). -/
def CreateRes.status : CreateRes → Nat
  | .badRequest _ => 400
  | .created _ => 201

/-- Response of `PUT /api/books/:id`. -/
inductive UpdateRes where
  | notFound (error : String)
  | ok (doc : BookDoc)
deriving DecidableEq, Repr

/-- HTTP status of a `PUT /api/books/:id` response. -/
def UpdateRes.status : UpdateRes → Nat
  | .notFound _ => 404
  | .ok _ => 200

/-- Response of `DELETE /api/books/:id`: the route always answers
`res.json({ ok: true })`, a success acknowledgment. -/
inductive DeleteRes where
  | ack
deriving DecidableEq, Repr

/-- HTTP status of a `DELETE /api/books/:id` response (plain `res.json`). -/
def DeleteRes.status : DeleteRes → Nat
  | .ack => 200

/- ==============================
   Book route handlers
   ============================== -/

/-- The `listBooks` helper: `booksCollection.find({}).sort({ _id: -1 })`,
every document, sorted by `_id` descending. -/
def sortKey (a b : BookDoc) : Prop :=
  b.objId ≤ a.objId

instance : DecidableRel sortKey := fun a b => Nat.decLe b.objId a.objId

instance : IsTotal BookDoc sortKey := ⟨fun a b => Nat.le_total b.objId a.objId⟩

instance : IsTrans BookDoc sortKey :=
  ⟨fun _ _ _ hab hbc => Nat.le_trans hbc hab⟩

def listBooks (s : Store) : List BookDoc :=
  s.docs.insertionSort sortKey

/-- Handler of `GET /api/books/:id`: `findOne({ id })` returns the first
document in natural order whose `id` field equals the route parameter;
`404 { error: "Not found" }` when there is none. -/
def getBookById (s : Store) (i : String) : GetRes :=
  match s.docs.find? (idMatches i) with
  | none => .notFound "Not found"
  | some d => .ok d

/-- The document the create route builds and inserts: the generated
`id`, the four body fields as the BSON serializer stores them, a fresh
`createdAt`, no `updatedAt` key yet, and the `_id` the driver assigns at
insertion. -/
def newBookDoc (s : Store) (body : ReqBody) (now : Nat) (newId : String) :
    BookDoc :=
  { objId := s.nextObjId
    id := newId
    title := bsonValue body.title
    author := bsonValue body.author
    price := bsonValue body.price
    coverBlob := bsonValue body.coverBlob
    createdAt := now
    updatedAt := none }

/-- Handler of `POST /api/books`.  Arguments beyond the state and body:
`now` is `new Date()` and `newId` is the `uuidv4()` the route generates.
Validation `if (!title || !author)` answers 400 before any database
call; otherwise the document is built, inserted, and echoed back with
status 201. -/
def createBook (s : Store) (body : ReqBody) (now : Nat) (newId : String) :
    CreateRes × Store :=
  if ¬ (truthy body.title ∧ truthy body.author) then
    (.badRequest "Title and author required", s)
  else
    let doc := newBookDoc s body now newId
    (.created doc, { docs := s.docs ++ [doc], nextObjId := s.nextObjId + 1 })

/-- The `$set` document of the update route, applied to a matched book:
`{ $set: { title, author, price, coverBlob, updatedAt: new Date() } }`.
All four body fields are written unconditionally (a field missing from
the request body arrives as `undefined` and is stored as `null`); `id`,
`_id` and `createdAt` are not part of the `$set`. -/
def applySet (body : ReqBody) (now : Nat) (d : BookDoc) : BookDoc :=
  { d with
    title := bsonValue body.title
    author := bsonValue body.author
    price := bsonValue body.price
    coverBlob := bsonValue body.coverBlob
    updatedAt := some now }

/-- Replace the first document matching `p` by its image under `f`
(`findOneAndUpdate` updates the first match in natural order). -/
def updateFirst (p : BookDoc → Bool) (f : BookDoc → BookDoc) :
    List BookDoc → List BookDoc
  | [] => []
  | d :: rest => if p d then f d :: rest else d :: updateFirst p f rest

/-- Handler of `PUT /api/books/:id`: `findOneAndUpdate({ id }, $set,
{ returnDocument: "after" })`; 404 when no document has that `id`,
otherwise 200 with the post-update document. -/
def updateBook (s : Store) (i : String) (body : ReqBody) (now : Nat) :
    UpdateRes × Store :=
  match s.docs.find? (idMatches i) with
  | none => (.notFound "Not found", s)
  | some d =>
      (.ok (applySet body now d),
       { s with docs := updateFirst (idMatches i) (applySet body now) s.docs })

/-- Handler of `DELETE /api/books/:id`: `deleteOne({ id })` removes the
first matching document (if any) and the route answers
`res.json({ ok: true })` unconditionally. -/
def deleteBook (s : Store) (i : String) : DeleteRes × Store :=
  (.ack, { s with docs := s.docs.eraseP (idMatches i) })

/- ==============================
   SAS routes
   ============================== -/

/-- The permission set of `new BlobSASPermissions()`: every capability
starts out false and the route enables individual fields. -/
structure BlobSASPermissions where
  read : Bool
  add : Bool
  create : Bool
  write : Bool
  delete : Bool
deriving DecidableEq, Repr

/-- The value produced by `new BlobSASPermissions()`. -/
def newBlobSASPermissions : BlobSASPermissions :=
  { read := false, add := false, create := false, write := false, delete := false }

/-- The argument record passed to `generateBlobSASQueryParameters`: the
capability grant and validity window baked into the signed URL the route
returns.  The cryptographic token itself is external to the repository;
its observable content is exactly these parameters. -/
structure SasParams where
  containerName : String
  blobName : String
  permissions : BlobSASPermissions
  startsOn : Nat
  expiresOn : Nat
deriving DecidableEq, Repr

/-- Sanitization `filename.replace(/[^a-zA-Z0-9-.]/g, "")`: keep ASCII
letters, ASCII digits, hyphen and dot; strip everything else. -/
def isAllowedChar (c : Char) : Bool :=
  c.isAlphanum || c == '-' || c == '.'

def sanitizeFilename (s : String) : String :=
  String.mk (s.data.filter isAllowedChar)

/-- Response of `POST /api/generate-sas`. -/
inductive GenSasRes where
  | badRequest (error : String)
  | serverError (error : String)
  | ok (blobName : String) (sas : SasParams)
deriving DecidableEq, Repr

/-- HTTP status of a `POST /api/generate-sas` response. -/
def GenSasRes.status : GenSasRes → Nat
  | .badRequest _ => 400
  | .serverError _ => 500
  | .ok _ _ => 200

/-- The SAS signing request the generate-sas route issued, if any
(`none` exactly when the route returned before building a token). -/
def GenSasRes.sasIssued : GenSasRes → Option SasParams
  | .ok _ sas => some sas
  | _ => none

/-- Handler of `POST /api/generate-sas`.  `filename` is `req.body.filename`
(any JS value); `now` is both `Date.now()` and the `new Date()` used as
`startsOn`.  A falsy filename answers 400 with no token built; a truthy
non-string makes `filename.replace` throw a TypeError, caught by the
catch-all of the route as 500.  Otherwise the name is sanitized, prefixed, and
a create+write token valid for 5 minutes is issued. -/
def generateSas (containerName : String) (filename : JSValue) (now : Nat) :
    GenSasRes :=
  if ¬ truthy filename then .badRequest "filename required"
  else
    match filename with
    | .str f =>
        let blobName := "covers/" ++ toString now ++ "-" ++ sanitizeFilename f
        let permissions :=
          { newBlobSASPermissions with create := true, write := true }
        .ok blobName
          { containerName := containerName
            blobName := blobName
            permissions := permissions
            startsOn := now
            expiresOn := now + 5 * 60 * 1000 }
    | _ => .serverError "TypeError: filename.replace is not a function"

/-- Response of `GET /api/cover-url`: either 400, or `res.redirect(url)`
to the signed read URL (Express `res.redirect` uses status 302). -/
inductive CoverUrlRes where
  | badRequest (error : String)
  | redirect (sas : SasParams)
deriving DecidableEq, Repr

/-- HTTP status of a `GET /api/cover-url` response. -/
def CoverUrlRes.status : CoverUrlRes → Nat
  | .badRequest _ => 400
  | .redirect _ => 302

/-- The SAS signing request the cover-url route issued, if any. -/
def CoverUrlRes.sasIssued : CoverUrlRes → Option SasParams
  | .redirect sas => some sas
  | _ => none

/-- Handler of `GET /api/cover-url`.  `blob` is the `req.query.blob`
query parameter: absent (`none`) or a string; the guard `if (!blob)` is
a truthiness check, so an empty-string value is rejected like a missing
one.  Otherwise a read-only token valid for 10 minutes is issued and the
route redirects to the signed URL. -/
def coverUrl (containerName : String) (blob : Option String) (now : Nat) :
    CoverUrlRes :=
  match blob with
  | none => .badRequest "blob param required"
  | some b =>
      if b = "" then .badRequest "blob param required"
      else
        .redirect
          { containerName := containerName
            blobName := b
            permissions := { newBlobSASPermissions with read := true }
            startsOn := now
            expiresOn := now + 10 * 60 * 1000 }

/- ==============================
   Shared helper lemmas
   ============================== -/

theorem truthy_undefined : truthy .undefined = false := rfl

theorem bsonValue_of_truthy {v : JSValue} (h : truthy v) : bsonValue v = v := by
  cases v <;> simp_all [truthy, bsonValue]

theorem bsonValue_of_ne_undefined {v : JSValue} (h : v ≠ .undefined) :
    bsonValue v = v := by
  cases v <;> simp_all [bsonValue]

theorem find?_append_of_none {p : BookDoc → Bool} {l1 l2 : List BookDoc}
    (h : ∀ x ∈ l1, p x = false) : (l1 ++ l2).find? p = l2.find? p := by
  induction l1 with
  | nil => rfl
  | cons a l ih =>
      have ha := h a (List.mem_cons_self a l)
      have ih := ih fun x hx => h x (List.mem_cons_of_mem a hx)
      simp [List.find?, ha, ih]

theorem find?_eraseP_eq_none {p : BookDoc → Bool} {l : List BookDoc}
    (h : (l.filter p).length ≤ 1) : (l.eraseP p).find? p = none := by
  induction l with
  | nil => rfl
  | cons a l ih =>
      cases hp : p a with
      | true =>
          rw [List.eraseP_cons_of_pos hp]
          rw [List.find?_eq_none]
          intro x hx
          have hlen : (l.filter p).length = 0 := by
            have h2 := h
            rw [List.filter_cons_of_pos hp] at h2
            simpa using h2
          have hnil : l.filter p = [] := List.length_eq_zero.mp hlen
          have := List.filter_eq_nil_iff.mp hnil x hx
          simpa using this
      | false =>
          rw [List.eraseP_cons_of_neg (by simp [hp])]
          have hlen : (l.filter p).length ≤ 1 := by
            rwa [List.filter_cons_of_neg (by simp [hp])] at h
          simp [List.find?, hp, ih hlen]

theorem updateFirst_map_frame {β : Type} (p : BookDoc → Bool)
    (g : BookDoc → BookDoc) (proj : BookDoc → β)
    (hg : ∀ x, proj (g x) = proj x) (l : List BookDoc) :
    (updateFirst p g l).map proj = l.map proj := by
  induction l with
  | nil => rfl
  | cons a l ih =>
      by_cases hp : p a <;> simp [updateFirst, hp, hg, ih]

theorem insertionSort_append_top {l : List BookDoc} {d : BookDoc}
    (h : ∀ x ∈ l, x.objId < d.objId) :
    (l ++ [d]).insertionSort sortKey = d :: l.insertionSort sortKey := by
  induction l with
  | nil => rfl
  | cons a l ih =>
      have ha : a.objId < d.objId := h a (List.mem_cons_self a l)
      have ih := ih fun x hx => h x (List.mem_cons_of_mem a hx)
      have step : ((a :: l) ++ [d]).insertionSort sortKey
          = List.orderedInsert sortKey a ((l ++ [d]).insertionSort sortKey) := rfl
      rw [step, ih]
      have hnot : ¬ sortKey a d := Nat.not_le.mpr ha
      simp [List.orderedInsert, if_neg hnot]

theorem createBook_docs (s : Store) (body : ReqBody) (now : Nat) (newId : String)
    (ht : truthy body.title) (ha : truthy body.author) :
    (createBook s body now newId).2.docs = s.docs ++ [newBookDoc s body now newId] ∧
    (createBook s body now newId).2.nextObjId = s.nextObjId + 1 := by
  simp [createBook, ht, ha]

/- ==============================
   Sample values for witnesses
   ============================== -/

/-- A sample stored document, used to instantiate witnesses. -/
def sampleDoc : BookDoc :=
  { objId := 0, id := "a", title := .str "T", author := .str "U",
    price := .null, coverBlob := .null, createdAt := 1, updatedAt := none }

/-- A one-document sample store. -/
def sampleStore : Store := { docs := [sampleDoc], nextObjId := 1 }

/-- A sample request body with truthy title and author. -/
def sampleBody : ReqBody :=
  { title := .str "T2", author := .str "U2", price := .num 5,
    coverBlob := .undefined }

/- ==============================
   Claim theorems
   ============================== -/

/-- C1: a create request whose body has a truthy (in particular
non-empty) title and author is answered 201 with the built document,
whose id is the non-empty server-generated one, whose title, author,
price and coverBlob are the supplied values (as the store serializes
them), and whose createdAt is stamped; provided the generated id is
fresh (as uuidv4 guarantees), a subsequent get-by-id with that id
returns the identical document. -/
theorem create_responds_created_and_get_returns_it
    (s : Store) (body : ReqBody) (now : Nat) (newId : String)
    (ht : truthy body.title) (ha : truthy body.author)
    (hid : newId ≠ "") (hfresh : ∀ d ∈ s.docs, d.id ≠ newId) :
    (createBook s body now newId).1 = .created (newBookDoc s body now newId) ∧
    ((createBook s body now newId).1).status = 201 ∧
    (newBookDoc s body now newId).id = newId ∧
    (newBookDoc s body now newId).id ≠ "" ∧
    (newBookDoc s body now newId).title = body.title ∧
    (newBookDoc s body now newId).author = body.author ∧
    (newBookDoc s body now newId).price = bsonValue body.price ∧
    (newBookDoc s body now newId).coverBlob = bsonValue body.coverBlob ∧
    (newBookDoc s body now newId).createdAt = now ∧
    getBookById (createBook s body now newId).2 newId =
      .ok (newBookDoc s body now newId) := by
  have hres : (createBook s body now newId).1
      = .created (newBookDoc s body now newId) := by
    simp [createBook, ht, ha]
  refine ⟨hres, by rw [hres]; rfl, rfl, hid, ?_, ?_, rfl, rfl, rfl, ?_⟩
  · show bsonValue body.title = body.title
    exact bsonValue_of_truthy ht
  · show bsonValue body.author = body.author
    exact bsonValue_of_truthy ha
  · have hdocs := (createBook_docs s body now newId ht ha).1
    unfold getBookById
    rw [hdocs, find?_append_of_none fun x hx => by simp [idMatches, hfresh x hx]]
    simp [List.find?, idMatches, newBookDoc]

/-- Witness for C1 at a concrete create request on the empty store. -/
theorem create_responds_created_and_get_returns_it_witness :
    (createBook ⟨[], 0⟩ sampleBody 5 "b1").1
      = .created (newBookDoc ⟨[], 0⟩ sampleBody 5 "b1") ∧
    getBookById (createBook ⟨[], 0⟩ sampleBody 5 "b1").2 "b1"
      = .ok (newBookDoc ⟨[], 0⟩ sampleBody 5 "b1") := by
  have h := create_responds_created_and_get_returns_it ⟨[], 0⟩ sampleBody 5 "b1"
    (by decide) (by decide) (by decide) (by simp)
  exact ⟨h.1, h.2.2.2.2.2.2.2.2.2⟩

/-- C2: an update on an existing id is answered 200 with the post-update
document, in which title, author, price and coverBlob are exactly the
request-body values as stored (a field missing from the body arrives as
undefined and is overwritten to null, never left unchanged) and
updatedAt is stamped; an update on an absent id is answered 404. -/
theorem update_replaces_all_mutable_fields
    (s : Store) (i : String) (body : ReqBody) (now : Nat) :
    (∀ d, s.docs.find? (idMatches i) = some d →
        (updateBook s i body now).1 = .ok (applySet body now d) ∧
        ((updateBook s i body now).1).status = 200 ∧
        (applySet body now d).title = bsonValue body.title ∧
        (applySet body now d).author = bsonValue body.author ∧
        (applySet body now d).price = bsonValue body.price ∧
        (applySet body now d).coverBlob = bsonValue body.coverBlob ∧
        (applySet body now d).updatedAt = some now) ∧
    (s.docs.find? (idMatches i) = none →
        (updateBook s i body now).1 = .notFound "Not found" ∧
        ((updateBook s i body now).1).status = 404) ∧
    (∀ v, v ≠ .undefined → bsonValue v = v) ∧
    bsonValue .undefined = .null := by
  refine ⟨?_, ?_, fun v hv => bsonValue_of_ne_undefined hv, rfl⟩
  · intro d hd
    refine ⟨by simp [updateBook, hd], ?_, rfl, rfl, rfl, rfl, rfl⟩
    simp [updateBook, hd, UpdateRes.status]
  · intro hnone
    refine ⟨by simp [updateBook, hnone], ?_⟩
    simp [updateBook, hnone, UpdateRes.status]

/-- Witness for C2: updating the sample document, and updating an id
absent from the sample store. -/
theorem update_replaces_all_mutable_fields_witness :
    (updateBook sampleStore "a" sampleBody 7).1
      = .ok (applySet sampleBody 7 sampleDoc) ∧
    (applySet sampleBody 7 sampleDoc).updatedAt = some 7 ∧
    (updateBook sampleStore "zz" sampleBody 7).1 = .notFound "Not found" := by
  have h1 := (update_replaces_all_mutable_fields sampleStore "a" sampleBody 7).1
    sampleDoc (by decide)
  have h2 := (update_replaces_all_mutable_fields sampleStore "zz" sampleBody 7).2.1
    (by decide)
  exact ⟨h1.1, h1.2.2.2.2.2.2, h2.1⟩

/-- C3: get-by-id answers 200 with the record whose application-level id
field equals the argument (lookup is by the `id` field the match
predicate inspects, not the `_id` ObjectId) when one exists, and answers
404 with the error body `Not found` when none does. -/
theorem get_by_id_spec (s : Store) (i : String) :
    (∀ d, s.docs.find? (idMatches i) = some d →
        getBookById s i = .ok d ∧ d ∈ s.docs ∧ d.id = i ∧
        (getBookById s i).status = 200) ∧
    ((∃ d ∈ s.docs, d.id = i) → ∃ d, getBookById s i = .ok d ∧ d.id = i) ∧
    ((∀ d ∈ s.docs, d.id ≠ i) →
        getBookById s i = .notFound "Not found" ∧
        (getBookById s i).status = 404) := by
  refine ⟨?_, ?_, ?_⟩
  · intro d hd
    have hmem := List.mem_of_find?_eq_some hd
    have hid : d.id = i := by simpa [idMatches] using List.find?_some hd
    exact ⟨by simp [getBookById, hd], hmem, hid, by simp [getBookById, hd, GetRes.status]⟩
  · rintro ⟨d, hmem, hid⟩
    have hsome : (s.docs.find? (idMatches i)).isSome :=
      List.find?_isSome.mpr ⟨d, hmem, by simp [idMatches, hid]⟩
    obtain ⟨d2, hd2⟩ := Option.isSome_iff_exists.mp hsome
    exact ⟨d2, by simp [getBookById, hd2],
      by simpa [idMatches] using List.find?_some hd2⟩
  · intro hnone
    have hfind : s.docs.find? (idMatches i) = none :=
      List.find?_eq_none.mpr fun x hx => by simp [idMatches, hnone x hx]
    exact ⟨by simp [getBookById, hfind], by simp [getBookById, hfind, GetRes.status]⟩

/-- Witness for C3: a present id and an absent id on the sample store. -/
theorem get_by_id_spec_witness :
    getBookById sampleStore "a" = .ok sampleDoc ∧
    getBookById sampleStore "zz" = .notFound "Not found" :=
  ⟨((get_by_id_spec sampleStore "a").1 sampleDoc (by decide)).1,
   ((get_by_id_spec sampleStore "zz").2.2 (by decide)).1⟩

/-- C4: delete always answers the success acknowledgment with status 200
(never a not-found error), removing the matching document if any; when
ids are unique in the collection (the uuid invariant), a get-by-id after
the delete answers 404. -/
theorem delete_ack_and_get_404 (s : Store) (i : String) :
    (deleteBook s i).1 = .ack ∧
    ((deleteBook s i).1).status = 200 ∧
    (deleteBook s i).2.docs = s.docs.eraseP (idMatches i) ∧
    ((s.docs.filter (idMatches i)).length ≤ 1 →
        getBookById (deleteBook s i).2 i = .notFound "Not found" ∧
        (getBookById (deleteBook s i).2 i).status = 404) := by
  refine ⟨rfl, rfl, rfl, fun h => ?_⟩
  have hfind : ((deleteBook s i).2.docs).find? (idMatches i) = none :=
    find?_eraseP_eq_none h
  exact ⟨by simp [getBookById, hfind], by simp [getBookById, hfind, GetRes.status]⟩

/-- Witness for C4: deleting the existing sample id, then fetching it;
and deleting an id absent from the empty store. -/
theorem delete_ack_and_get_404_witness :
    (deleteBook sampleStore "a").1 = .ack ∧
    getBookById (deleteBook sampleStore "a").2 "a" = .notFound "Not found" ∧
    (deleteBook ⟨[], 0⟩ "zz").1 = .ack := by
  have h1 := delete_ack_and_get_404 sampleStore "a"
  have h2 := delete_ack_and_get_404 ⟨[], 0⟩ "zz"
  exact ⟨h1.1, (h1.2.2.2 (by decide)).1, h2.1⟩

/-- C5: the list route returns every document (a permutation of the
collection, no filtering, no pagination), sorted descending by the
insertion-ordered `_id` key (most-recently-created first); in
particular, creating R1 then R2 from any well-formed state puts exactly
the R2 document, then the R1 document, in front of the previous
listing. -/
theorem list_books_most_recent_first
    (s : Store) (b1 b2 : ReqBody) (t1 t2 : Nat) (id1 id2 : String)
    (inv : ∀ d ∈ s.docs, d.objId < s.nextObjId)
    (h1t : truthy b1.title) (h1a : truthy b1.author)
    (h2t : truthy b2.title) (h2a : truthy b2.author) :
    (listBooks s).Perm s.docs ∧
    List.Sorted sortKey (listBooks s) ∧
    listBooks (createBook (createBook s b1 t1 id1).2 b2 t2 id2).2
      = newBookDoc (createBook s b1 t1 id1).2 b2 t2 id2
        :: newBookDoc s b1 t1 id1 :: listBooks s := by
  refine ⟨List.perm_insertionSort sortKey s.docs,
    List.sorted_insertionSort sortKey s.docs, ?_⟩
  have h1 := createBook_docs s b1 t1 id1 h1t h1a
  have h2 := createBook_docs (createBook s b1 t1 id1).2 b2 t2 id2 h2t h2a
  have hd1 : (newBookDoc s b1 t1 id1).objId = s.nextObjId := rfl
  have hd2 : (newBookDoc (createBook s b1 t1 id1).2 b2 t2 id2).objId
      = (createBook s b1 t1 id1).2.nextObjId := rfl
  have hcond2 : ∀ x ∈ (createBook s b1 t1 id1).2.docs,
      x.objId < (newBookDoc (createBook s b1 t1 id1).2 b2 t2 id2).objId := by
    intro x hx
    rw [h1.1] at hx
    rw [hd2, h1.2]
    rcases List.mem_append.mp hx with hx | hx
    · exact Nat.lt_succ_of_lt (inv x hx)
    · have hx : x = newBookDoc s b1 t1 id1 := by simpa using hx
      subst hx
      rw [hd1]
      exact Nat.lt_succ_self _
  have hcond1 : ∀ x ∈ s.docs, x.objId < (newBookDoc s b1 t1 id1).objId :=
    fun x hx => inv x hx
  unfold listBooks
  rw [h2.1, insertionSort_append_top hcond2, h1.1,
    insertionSort_append_top hcond1]

/-- Witness for C5: two creates on the empty store list back in reverse
creation order. -/
theorem list_books_most_recent_first_witness :
    listBooks (createBook (createBook ⟨[], 0⟩ sampleBody 1 "x").2 sampleBody 2 "y").2
      = newBookDoc (createBook ⟨[], 0⟩ sampleBody 1 "x").2 sampleBody 2 "y"
        :: newBookDoc ⟨[], 0⟩ sampleBody 1 "x" :: listBooks ⟨[], 0⟩ :=
  (list_books_most_recent_first ⟨[], 0⟩ sampleBody sampleBody 1 2 "x" "y"
    (by simp) (by decide) (by decide) (by decide) (by decide)).2.2

/-- C6: for a non-empty string filename, generate-sas strips every
character that is not an ASCII letter, digit, hyphen or dot, issues the
blob name `covers/<millisecond-timestamp>-<sanitized-name>`, and returns
that blob name together with SAS parameters on that exact blob name
granting create and write but not read, valid from issuance for exactly
5 minutes. -/
theorem generate_sas_spec (c : String) (f : String) (now : Nat) (hf : f ≠ "") :
    generateSas c (.str f) now =
      .ok ("covers/" ++ toString now ++ "-" ++ sanitizeFilename f)
        { containerName := c
          blobName := "covers/" ++ toString now ++ "-" ++ sanitizeFilename f
          permissions :=
            { read := false, add := false, create := true, write := true,
              delete := false }
          startsOn := now
          expiresOn := now + 5 * 60 * 1000 } ∧
    sanitizeFilename f = String.mk (f.data.filter isAllowedChar) ∧
    (∀ ch ∈ (sanitizeFilename f).data, ch.isAlphanum ∨ ch = '-' ∨ ch = '.') ∧
    (∀ ch, isAllowedChar ch = false → ch ∉ (sanitizeFilename f).data) := by
  refine ⟨?_, rfl, ?_, ?_⟩
  · simp [generateSas, truthy, hf, newBlobSASPermissions]
  · intro ch hch
    have hall : isAllowedChar ch := (List.mem_filter.mp hch).2
    simpa [isAllowedChar, or_assoc] using hall
  · intro ch hch hmem
    have hall := (List.mem_filter.mp hmem).2
    rw [hch] at hall
    exact Bool.noConfusion hall

/-- Witness for C6 at the spec example filename. -/
theorem generate_sas_spec_witness :
    sanitizeFilename "my file!.png" = "myfile.png" ∧
    generateSas "covers" (.str "my file!.png") 99 =
      .ok ("covers/" ++ toString 99 ++ "-" ++ sanitizeFilename "my file!.png")
        { containerName := "covers"
          blobName := "covers/" ++ toString 99 ++ "-" ++ sanitizeFilename "my file!.png"
          permissions :=
            { read := false, add := false, create := true, write := true,
              delete := false }
          startsOn := 99
          expiresOn := 99 + 5 * 60 * 1000 } :=
  ⟨by decide, (generate_sas_spec "covers" "my file!.png" 99 (by decide)).1⟩

/-- C7: for a request naming a blob (a truthy `blob` query parameter),
cover-url answers a 3xx redirect (status 302) carrying SAS parameters on
that blob granting read only (no create, no write), with a validity
window that starts at issuance and ends exactly 10 minutes later, hence
strictly after issuance and strictly before issuance plus 11 minutes. -/
theorem cover_url_spec (c : String) (b : String) (now : Nat) (hb : b ≠ "") :
    coverUrl c (some b) now =
      .redirect
        { containerName := c
          blobName := b
          permissions :=
            { read := true, add := false, create := false, write := false,
              delete := false }
          startsOn := now
          expiresOn := now + 10 * 60 * 1000 } ∧
    now < now + 10 * 60 * 1000 ∧
    now + 10 * 60 * 1000 < now + 11 * 60 * 1000 ∧
    (coverUrl c (some b) now).status = 302 ∧
    300 ≤ (coverUrl c (some b) now).status ∧
    (coverUrl c (some b) now).status < 400 := by
  have hres : coverUrl c (some b) now =
      .redirect
        { containerName := c
          blobName := b
          permissions :=
            { read := true, add := false, create := false, write := false,
              delete := false }
          startsOn := now
          expiresOn := now + 10 * 60 * 1000 } := by
    simp [coverUrl, hb, newBlobSASPermissions]
  have hstat : (coverUrl c (some b) now).status = 302 := by
    rw [hres]
    rfl
  exact ⟨hres, by omega, by omega, hstat, by rw [hstat]; omega,
    by rw [hstat]; omega⟩

/-- Witness for C7 at a concrete blob name. -/
theorem cover_url_spec_witness :
    coverUrl "covers" (some "covers/1-a.png") 50 =
      .redirect
        { containerName := "covers"
          blobName := "covers/1-a.png"
          permissions :=
            { read := true, add := false, create := false, write := false,
              delete := false }
          startsOn := 50
          expiresOn := 50 + 10 * 60 * 1000 } ∧
    (coverUrl "covers" (some "covers/1-a.png") 50).status = 302 :=
  ⟨(cover_url_spec "covers" "covers/1-a.png" 50 (by decide)).1,
   (cover_url_spec "covers" "covers/1-a.png" 50 (by decide)).2.2.2.1⟩

/-- C8: a request missing a required parameter is answered 400 before
any upstream work: a falsy (in particular missing) filename makes
generate-sas answer 400 with no SAS issued, a missing blob query
parameter makes cover-url answer 400 with no SAS issued, and a missing
(or otherwise falsy) title or author makes create answer 400 with the
store unchanged. -/
theorem missing_param_rejected_400 (c : String) (v : JSValue) (now : Nat)
    (s : Store) (body : ReqBody) (tnow : Nat) (newId : String) :
    (truthy v = false →
        generateSas c v now = .badRequest "filename required" ∧
        (generateSas c v now).status = 400 ∧
        (generateSas c v now).sasIssued = none) ∧
    (coverUrl c none now = .badRequest "blob param required" ∧
     (coverUrl c none now).status = 400 ∧
     (coverUrl c none now).sasIssued = none) ∧
    ((truthy body.title = false ∨ truthy body.author = false) →
        createBook s body tnow newId = (.badRequest "Title and author required", s) ∧
        ((createBook s body tnow newId).1).status = 400) := by
  refine ⟨?_, ⟨rfl, rfl, rfl⟩, ?_⟩
  · intro hv
    have hres : generateSas c v now = .badRequest "filename required" := by
      simp [generateSas, hv]
    exact ⟨hres, by rw [hres]; rfl, by rw [hres]; rfl⟩
  · intro hv
    have hres : createBook s body tnow newId
        = (.badRequest "Title and author required", s) := by
      rcases hv with hv | hv <;> simp [createBook, hv]
    exact ⟨hres, by rw [hres]; rfl⟩

/-- Witness for C8: an undefined filename, a missing blob parameter, and
a body with no title. -/
theorem missing_param_rejected_400_witness :
    generateSas "covers" .undefined 3 = .badRequest "filename required" ∧
    coverUrl "covers" none 3 = .badRequest "blob param required" ∧
    (createBook ⟨[], 0⟩ { sampleBody with title := .undefined } 3 "b1").1
      = .badRequest "Title and author required" := by
  have h := missing_param_rejected_400 "covers" .undefined 3 ⟨[], 0⟩
    { sampleBody with title := .undefined } 3 "b1"
  exact ⟨(h.1 (by decide)).1, h.2.1.1,
    by rw [(h.2.2 (Or.inl (by decide))).1]⟩

/-- C9: updating an existing record leaves its id, its `_id` and its
createdAt unchanged: the `$set` document rewrites only title, author,
price, coverBlob and updatedAt, and the ids and creation stamps of the
whole collection are the same after the update as before. -/
theorem update_preserves_id_and_createdAt (s : Store) (i : String)
    (body : ReqBody) (now : Nat) (d : BookDoc)
    (h : s.docs.find? (idMatches i) = some d) :
    (updateBook s i body now).1 = .ok (applySet body now d) ∧
    (applySet body now d).id = d.id ∧
    (applySet body now d).createdAt = d.createdAt ∧
    (applySet body now d).objId = d.objId ∧
    (updateBook s i body now).2.docs
      = updateFirst (idMatches i) (applySet body now) s.docs ∧
    ((updateBook s i body now).2.docs.map fun x => (x.objId, x.id, x.createdAt))
      = (s.docs.map fun x => (x.objId, x.id, x.createdAt)) ∧
    (∀ x, (applySet body now x).id = x.id ∧
        (applySet body now x).createdAt = x.createdAt ∧
        (applySet body now x).objId = x.objId) := by
  have hdocs : (updateBook s i body now).2.docs
      = updateFirst (idMatches i) (applySet body now) s.docs := by
    simp [updateBook, h]
  refine ⟨by simp [updateBook, h], rfl, rfl, rfl, hdocs, ?_,
    fun x => ⟨rfl, rfl, rfl⟩⟩
  rw [hdocs]
  exact updateFirst_map_frame (idMatches i) (applySet body now)
    (fun x => (x.objId, x.id, x.createdAt)) (fun x => rfl) s.docs

/-- Witness for C9 at the sample store. -/
theorem update_preserves_id_and_createdAt_witness :
    (updateBook sampleStore "a" sampleBody 7).1
      = .ok (applySet sampleBody 7 sampleDoc) ∧
    (applySet sampleBody 7 sampleDoc).id = sampleDoc.id ∧
    (applySet sampleBody 7 sampleDoc).createdAt = sampleDoc.createdAt := by
  have h := update_preserves_id_and_createdAt sampleStore "a" sampleBody 7
    sampleDoc (by decide)
  exact ⟨h.1, h.2.1, h.2.2.1⟩

/-- C10: create validation is a JS truthiness check: a title or author
that is present but falsy (empty string, 0, false) is rejected with 400
exactly as if the field were missing, leaving the store unchanged, so an
empty-string title or author can never be stored via create. -/
theorem create_rejects_falsy_title_author (s : Store) (body : ReqBody)
    (now : Nat) (newId : String) (v : JSValue) (hv : truthy v = false) :
    createBook s { body with title := v } now newId
      = createBook s { body with title := .undefined } now newId ∧
    (createBook s { body with title := v } now newId).1
      = .badRequest "Title and author required" ∧
    (createBook s { body with title := v } now newId).2 = s ∧
    createBook s { body with author := v } now newId
      = createBook s { body with author := .undefined } now newId ∧
    (createBook s { body with author := v } now newId).1
      = .badRequest "Title and author required" ∧
    (createBook s { body with author := v } now newId).2 = s ∧
    ((createBook s { body with title := v } now newId).1).status = 400 ∧
    truthy (.str "") = false ∧ truthy (.num 0) = false ∧
    truthy (.bool false) = false ∧ truthy .undefined = false := by
  refine ⟨?_, ?_, ?_, ?_, ?_, ?_, ?_, by decide, by decide, rfl, rfl⟩ <;>
    simp [createBook, hv, truthy_undefined, CreateRes.status]

/-- Witness for C10 at an empty-string title. -/
theorem create_rejects_falsy_title_author_witness :
    (createBook sampleStore { sampleBody with title := .str "" } 3 "b1").1
      = .badRequest "Title and author required" ∧
    (createBook sampleStore { sampleBody with title := .str "" } 3 "b1").2
      = sampleStore :=
  ⟨(create_rejects_falsy_title_author sampleStore sampleBody 3 "b1"
      (.str "") (by decide)).2.1,
   (create_rejects_falsy_title_author sampleStore sampleBody 3 "b1"
      (.str "") (by decide)).2.2.1⟩

end Bookstore
